import Mathlib

/-!
Shallow embedding of the fivetran_mcp repository: three single-file services
(`src/main.py`, an HTTP relay for a data-connector platform; `src/jira.py`, a
Jira tool server; `src/confluence_mcp.py`, a Confluence/GitHub tool server).
HTTP interaction is modelled by passing the upstream response (status code,
raw body text, and the parsed fields the handler actually reads) as explicit
parameters, and by returning alongside the handler result a log of the
outbound requests the handler issues, so that claims of the form "issues no
request" are statable.  Python exceptions are modelled by an explicit
`PyResult` sum; Python dicts by a small JSON value type.
-/

/-- An upstream HTTP response as the Python code observes it: the integer
status code (`resp.status_code`) and the raw body text (`resp.text`). -/
structure HttpResp where
  status_code : Nat
  text : String
deriving DecidableEq

/-- Result of running a Python fragment: either a normal return value or a
raised (uncaught) exception carrying its message. -/
inductive PyResult (α : Type) where
  | ok (val : α)
  | exn (msg : String)
deriving DecidableEq

/-- Model of `requests.Response.raise_for_status`: raises an `HTTPError`
exactly when the status code is in the 4xx or 5xx range, otherwise returns
normally. -/
def raise_for_status (r : HttpResp) : PyResult Unit :=
  if 400 ≤ r.status_code ∧ r.status_code < 600 then
    PyResult.exn ("HTTPError " ++ toString r.status_code)
  else
    PyResult.ok ()

/-- A JSON value, modelling the Python dicts/lists the services build and
return. -/
inductive Json where
  | null
  | str (s : String)
  | num (n : Int)
  | arr (xs : List Json)
  | obj (fields : List (String × Json))

/-- Keys of a JSON object (in order); empty for non-objects. -/
def Json.keys : Json → List String
  | Json.obj fs => fs.map Prod.fst
  | _ => []

/-- Model of Python string slicing `s[:n]`: the first `n` characters. -/
def pyTake (s : String) (n : Nat) : String := ⟨s.data.take n⟩

/-- Model of Python `str.lower()` (ASCII case folding, which is what the
Jira status names exercised here use). -/
def pyLower (s : String) : String := ⟨s.data.map Char.toLower⟩

/-- Model of Python `repr` applied to a list of plain strings (no quote or
escape characters), as interpolated by the f-string in
`transition_issue`: `['Done', 'In Progress']`. -/
def pyListRepr (xs : List String) : String :=
  "[" ++ String.intercalate ", " (xs.map (fun s => "\x27" ++ s ++ "\x27")) ++ "]"

/-- The process environment: a partial map from variable names to values,
modelling `os.getenv`. -/
def PyEnv := String → Option String

/-- Python truthiness of an `Optional[str]`: `None` and the empty string are
falsy, any other string is truthy. -/
def truthy : Option String → Bool
  | none => false
  | some s => !s.isEmpty

-- ==========================
-- src/main.py (the relay)
-- ==========================

/-- The credentials the relay loads at startup (`src/main.py` lines 15-16). -/
structure MainConfig where
  apiKey : Option String
  apiSecret : Option String
deriving DecidableEq

/-- Startup of `src/main.py`: it reads `FIVETRAN_API_KEY` and
`FIVETRAN_API_SECRET` from the environment, but the guard that would raise
`ValueError` when either is `None` is commented out (lines 18-19), and
`_basic_auth_str` accepts `None` (stringifying it) without raising, so
startup always succeeds. -/
def main_startup (env : PyEnv) : PyResult MainConfig :=
  PyResult.ok ⟨env "FIVETRAN_API_KEY", env "FIVETRAN_API_SECRET"⟩

/-- The URL `get_connector_info` requests for a connector id
(`src/main.py` lines 50-54): note the path segment is `connections`. -/
def connectorInfoUrl (connector_id : String) : String :=
  "https://api.fivetran.com/v1/connections/" ++ connector_id

/-- Handler of `GET /get_info/\x7bconnector_id\x7d` (`src/main.py` lines
43-58): issues one GET to `connectorInfoUrl`, calls `raise_for_status`, and
returns `resp.json()["data"]`.  `data` is the `"data"` member of the parsed
body; the second component is the log of GET URLs issued. -/
def get_connector_info (connector_id : String) (resp : HttpResp) (data : Json) :
    PyResult Json × List String :=
  match raise_for_status resp with
  | PyResult.exn e => (PyResult.exn e, [connectorInfoUrl connector_id])
  | PyResult.ok _ => (PyResult.ok data, [connectorInfoUrl connector_id])

-- ==========================
-- src/jira.py
-- ==========================

/-- The error message raised by the first startup guard of `src/jira.py`
(line 17). -/
def jiraEnvError : String :=
  "Set JIRA_BASE_URL, JIRA_EMAIL, and JIRA_API_TOKEN environment variables."

/-- The credentials `src/jira.py` binds at startup (lines 12-14).  Note the
field named `jiraApiToken` holds the value of the `CONFLUENCE_TOKEN`
environment variable, exactly as line 14 does. -/
structure JiraConfig where
  jiraBaseUrl : Option String
  jiraEmail : Option String
  jiraApiToken : Option String
deriving DecidableEq

/-- Startup of `src/jira.py` (lines 12-20): reads `JIRA_BASE_URL`,
`JIRA_EMAIL`, and — for the variable called `JIRA_API_TOKEN` — the
environment variable `CONFLUENCE_TOKEN`; raises `RuntimeError` when
`all([...])` is falsy (a value is `None` or empty). -/
def jira_startup (env : PyEnv) : PyResult JiraConfig :=
  let base := env "JIRA_BASE_URL"
  let email := env "JIRA_EMAIL"
  let token := env "CONFLUENCE_TOKEN"
  if !(truthy base && truthy email && truthy token) then
    PyResult.exn jiraEnvError
  else if !(truthy email && truthy token) then
    PyResult.exn "JIRA_EMAIL and JIRA_API_TOKEN must be set and not None."
  else
    PyResult.ok ⟨base, email, token⟩

/-- A Jira transition as returned by the transitions endpoint: an
`\x7bid, name\x7d` pair. -/
structure Transition where
  id : String
  name : String
deriving DecidableEq

/-- Upstream behaviour seen by one `transition_issue` call: the response to
the initial GET of `.../transitions`, the list that
`resp.json().get("transitions", [])` parses to on that response, and the
response to a transition POST as a function of the posted transition id. -/
structure JiraTransitionUpstream where
  getResp : HttpResp
  getTransitions : List Transition
  postResp : String → HttpResp

/-- A dict returned by `transition_issue`: either `\x7b"error": msg\x7d` or
`\x7b"success": True, "issue": ..., "new_status": ...\x7d`. -/
inductive TransitionDict where
  | err (msg : String)
  | success (issue : String) (new_status : String)
deriving DecidableEq

/-- The no-match error message of `transition_issue` (`src/jira.py`
line 135): `Status '<status>' not found. Available: <repr of names>`. -/
def transitionNotFoundMsg (status : String) (names : List String) : String :=
  "Status \x27" ++ status ++ "\x27 not found. Available: " ++ pyListRepr names

/-- `transition_issue` (`src/jira.py` lines 116-146): GET the available
transitions; on non-200, return an error dict; on an empty list, return an
error dict; find the first transition whose lowercased name equals the
lowercased requested status; on no match, return an error dict listing the
available names; otherwise POST the transition with the matched id and
report the outcome.  The second component is the log of transition ids
POSTed. -/
def transition_issue (issue_key status : String) (up : JiraTransitionUpstream) :
    TransitionDict × List String :=
  if up.getResp.status_code ≠ 200 then
    (TransitionDict.err ("Failed to fetch transitions: " ++ up.getResp.text), [])
  else if up.getTransitions.isEmpty then
    (TransitionDict.err "No transitions available for this issue.", [])
  else
    match up.getTransitions.find? (fun t => pyLower t.name == pyLower status) with
    | none =>
        (TransitionDict.err
          (transitionNotFoundMsg status (up.getTransitions.map Transition.name)), [])
    | some m =>
        let doResp := up.postResp m.id
        if doResp.status_code ≠ 200 ∧ doResp.status_code ≠ 204 then
          (TransitionDict.err ("Failed to transition: " ++ doResp.text), [m.id])
        else
          (TransitionDict.success issue_key status, [m.id])

/-- Result of a tool that on success returns parsed upstream JSON and on a
bad status returns `\x7b"error": resp.text\x7d`. -/
inductive ToolResult (α : Type) where
  | err (msg : String)
  | ok (val : α)
deriving DecidableEq

/-- The Atlassian-document description payload `create_jira_issue` builds
(`src/jira.py` lines 44-53). -/
def jiraDescriptionDoc (description : String) : Json :=
  Json.obj
    [("type", Json.str "doc"), ("version", Json.num 1),
     ("content", Json.arr
       [Json.obj
         [("type", Json.str "paragraph"),
          ("content", Json.arr
            [Json.obj [("type", Json.str "text"), ("text", Json.str description)]])]])]

/-- The full issue-creation payload (`src/jira.py` lines 39-55). -/
def createIssuePayload (project_key summary issue_type description : String) : Json :=
  Json.obj
    [("fields", Json.obj
      [("project", Json.obj [("key", Json.str project_key)]),
       ("summary", Json.str summary),
       ("issuetype", Json.obj [("name", Json.str issue_type)]),
       ("description", jiraDescriptionDoc description)])]

/-- `create_jira_issue` (`src/jira.py` lines 35-59): builds the payload,
POSTs it, and returns `\x7b"error": resp.text\x7d` when the status code is
not in `(200, 201)`, else the parsed response.  The first component is the
payload POSTed; `parsed` is what `resp.json()` yields. -/
def create_jira_issue (project_key summary description issue_type : String)
    (resp : HttpResp) (parsed : Json) : Json × ToolResult Json :=
  (createIssuePayload project_key summary issue_type description,
   if ¬(resp.status_code = 200 ∨ resp.status_code = 201) then
     ToolResult.err resp.text
   else
     ToolResult.ok parsed)

-- ==========================
-- src/confluence_mcp.py
-- ==========================

/-- The error message raised by the startup guard of `src/confluence_mcp.py`
(lines 18-19). -/
def confluenceEnvError : String :=
  "Missing Confluence environment variables. Please set CONFLUENCE_BASE_URL, CONFLUENCE_USER, and CONFLUENCE_TOKEN."

/-- The configuration `src/confluence_mcp.py` binds at startup
(lines 12-15, 26). -/
structure ConfluenceConfig where
  baseUrl : Option String
  user : Option String
  token : Option String
  spaceKey : Option String
  githubToken : Option String
deriving DecidableEq

/-- Startup of `src/confluence_mcp.py` (lines 12-19): reads the Confluence
variables and raises `ValueError` when `CONFLUENCE_BASE_URL`,
`CONFLUENCE_USER`, or `CONFLUENCE_TOKEN` is falsy; `CONFLUENCE_SPACE_KEY`
and `GITHUB_TOKEN` are read without any check. -/
def confluence_startup (env : PyEnv) : PyResult ConfluenceConfig :=
  let base := env "CONFLUENCE_BASE_URL"
  let user := env "CONFLUENCE_USER"
  let token := env "CONFLUENCE_TOKEN"
  if !(truthy base && truthy user && truthy token) then
    PyResult.exn confluenceEnvError
  else
    PyResult.ok ⟨base, user, token, env "CONFLUENCE_SPACE_KEY", env "GITHUB_TOKEN"⟩

/-- `summarize_page` (`src/confluence_mcp.py` lines 35-45): GET the page,
`raise_for_status`, take `content = resp.json()["body"]["storage"]["value"]`
(here passed as the `content` parameter), truncate to the first 500
characters plus `"..."` when longer than 500 characters, and wrap the result
in a fixed prefix naming the page id. -/
def summarize_page (page_id : String) (resp : HttpResp) (content : String) :
    PyResult String :=
  match raise_for_status resp with
  | PyResult.exn e => PyResult.exn e
  | PyResult.ok _ =>
      let summary := if content.length > 500 then pyTake content 500 ++ "..." else content
      PyResult.ok ("Summary of page " ++ page_id ++ ": " ++ summary)

/-- The page-creation payload (`src/confluence_mcp.py` lines 62-72). -/
def createPagePayload (title spaceKey body : String) : Json :=
  Json.obj
    [("type", Json.str "page"), ("title", Json.str title),
     ("space", Json.obj [("key", Json.str spaceKey)]),
     ("body", Json.obj
       [("storage", Json.obj
         [("value", Json.str body), ("representation", Json.str "storage")])])]

/-- `create_page` (`src/confluence_mcp.py` lines 48-76): raises `ValueError`
before any request when `SPACE_KEY` is falsy; otherwise POSTs the payload to
`<base>/rest/api/content`, calls `raise_for_status`, and returns the parsed
response.  `title` models the timestamp string line 59 generates; the second
component is the log of (URL, payload) pairs POSTed. -/
def create_page (base : String) (spaceKey : Option String) (body title : String)
    (resp : HttpResp) (parsed : Json) : PyResult Json × List (String × Json) :=
  if !truthy spaceKey then
    (PyResult.exn "Missing CONFLUENCE_SPACE_KEY in environment variables", [])
  else
    let payload := createPagePayload title (spaceKey.getD "") body
    let url := base ++ "/rest/api/content"
    match raise_for_status resp with
    | PyResult.exn e => (PyResult.exn e, [(url, payload)])
    | PyResult.ok _ => (PyResult.ok parsed, [(url, payload)])

/-- A GitHub pull request as `list_pull_requests` reads it: the fields
`pr["number"]`, `pr["title"]`, `pr["state"]`, and `pr["user"]["login"]`. -/
structure PullRequest where
  number : Int
  title : String
  state : String
  userLogin : String
deriving DecidableEq

/-- The per-PR dict `list_pull_requests` builds (`src/confluence_mcp.py`
lines 96-97): keys `number`, `title`, `state`, `user`. -/
def pullRequestProjection (pr : PullRequest) : Json :=
  Json.obj
    [("number", Json.num pr.number), ("title", Json.str pr.title),
     ("state", Json.str pr.state), ("user", Json.str pr.userLogin)]

/-- `list_pull_requests` (`src/confluence_mcp.py` lines 89-97): GET the
pulls listing; on a non-200 status return `[\x7b"error": resp.text\x7d]`,
else map each parsed pull request to its reduced projection.  `prs` is the
list the 200-response body parses to. -/
def list_pull_requests (owner repo state : String) (resp : HttpResp)
    (prs : List PullRequest) : List Json :=
  if resp.status_code ≠ 200 then
    [Json.obj [("error", Json.str resp.text)]]
  else
    prs.map pullRequestProjection

-- ==========================
-- Theorems
-- ==========================

/-- Claim C1, counterexample: `summarize_page` does NOT return a structured
error value on a non-2xx upstream response — at status 404 it raises the
`HTTPError` of `raise_for_status` (`src/confluence_mcp.py` line 40), so the
claim that every tool returns an error value and never raises is false. -/
theorem summarize_page_raises_on_404 :
    summarize_page "123" ⟨404, "Not Found"⟩ "some content" =
      PyResult.exn "HTTPError 404" := rfl

/-- Claim C1, amended: tools that test the status code explicitly, such as
`create_jira_issue` (`src/jira.py` lines 56-59), do return a structured
error value carrying the raw upstream body on every non-2xx response and
never raise. -/
theorem create_jira_issue_err_on_non2xx (project_key summary description issue_type : String)
    (resp : HttpResp) (parsed : Json)
    (h : resp.status_code < 200 ∨ 300 ≤ resp.status_code) :
    (create_jira_issue project_key summary description issue_type resp parsed).2 =
      ToolResult.err resp.text := by
  have hns : ¬(resp.status_code = 200 ∨ resp.status_code = 201) := by omega
  simp [create_jira_issue, hns]

/-- Witness for the amended claim C1 at a concrete 404 response. -/
theorem create_jira_issue_err_on_non2xx_witness :
    (create_jira_issue "PROJ" "summary" "desc" "Task" ⟨404, "boom"⟩ Json.null).2 =
      ToolResult.err "boom" :=
  create_jira_issue_err_on_non2xx "PROJ" "summary" "desc" "Task" ⟨404, "boom"⟩ Json.null
    (by decide)

/-- Claim C2, counterexample: the relay (`src/main.py`) starts successfully
even when every environment variable, including `FIVETRAN_API_KEY` and
`FIVETRAN_API_SECRET`, is missing — the guard on lines 18-19 is commented
out — so the claim that every service refuses to start is false. -/
theorem main_startup_accepts_missing_env :
    main_startup (fun _ => none) = PyResult.ok ⟨none, none⟩ := rfl

/-- Claim C2, amended: the Confluence service aborts startup when a required
variable (here `CONFLUENCE_BASE_URL`) is missing, while on the very same
environment the relay starts successfully with whatever (possibly absent)
Fivetran credentials it finds. -/
theorem confluence_aborts_relay_does_not (env : PyEnv)
    (h : env "CONFLUENCE_BASE_URL" = none) :
    confluence_startup env = PyResult.exn confluenceEnvError ∧
      main_startup env = PyResult.ok ⟨env "FIVETRAN_API_KEY", env "FIVETRAN_API_SECRET"⟩ := by
  constructor
  · simp [confluence_startup, h, truthy]
  · rfl

/-- Witness for the amended claim C2 at the empty environment. -/
theorem confluence_aborts_relay_does_not_witness :
    confluence_startup (fun _ => none) = PyResult.exn confluenceEnvError ∧
      main_startup (fun _ => none) = PyResult.ok ⟨none, none⟩ :=
  confluence_aborts_relay_does_not (fun _ => none) rfl

/-- An environment supplying `JIRA_BASE_URL`, `JIRA_EMAIL`, and
`JIRA_API_TOKEN` — but not `CONFLUENCE_TOKEN`. -/
def envJiraApiTokenOnly : PyEnv := fun k =>
  if k = "JIRA_BASE_URL" then some "https://example.atlassian.net"
  else if k = "JIRA_EMAIL" then some "dev@example.com"
  else if k = "JIRA_API_TOKEN" then some "secret-token"
  else none

/-- Claim C3, counterexample: with `JIRA_BASE_URL`, `JIRA_EMAIL`, and
`JIRA_API_TOKEN` all set (and `CONFLUENCE_TOKEN` unset), `src/jira.py`
still aborts startup, because line 14 reads the token from
`CONFLUENCE_TOKEN`, not `JIRA_API_TOKEN`. -/
theorem jira_token_not_from_jira_api_token_env :
    jira_startup envJiraApiTokenOnly = PyResult.exn jiraEnvError := rfl

/-- Claim C3, amended: `src/jira.py` starts exactly when `JIRA_BASE_URL`,
`JIRA_EMAIL`, and `CONFLUENCE_TOKEN` are all set and non-empty, and the
API token it binds is the value of the `CONFLUENCE_TOKEN` environment
variable. -/
theorem jira_startup_token_source (env : PyEnv) :
    ((∃ cfg, jira_startup env = PyResult.ok cfg) ↔
      (truthy (env "JIRA_BASE_URL") ∧ truthy (env "JIRA_EMAIL") ∧
        truthy (env "CONFLUENCE_TOKEN"))) ∧
    ∀ cfg, jira_startup env = PyResult.ok cfg → cfg.jiraApiToken = env "CONFLUENCE_TOKEN" := by
  unfold jira_startup
  by_cases hb : truthy (env "JIRA_BASE_URL") <;>
    by_cases he : truthy (env "JIRA_EMAIL") <;>
      by_cases ht : truthy (env "CONFLUENCE_TOKEN") <;>
        simp [hb, he, ht]

/-- An environment supplying `JIRA_BASE_URL`, `JIRA_EMAIL`, and
`CONFLUENCE_TOKEN`. -/
def envJiraAll : PyEnv := fun k =>
  if k = "JIRA_BASE_URL" then some "https://example.atlassian.net"
  else if k = "JIRA_EMAIL" then some "dev@example.com"
  else if k = "CONFLUENCE_TOKEN" then some "conf-token"
  else none

/-- Witness for the amended claim C3: on an environment that sets the three
variables the code actually reads, startup succeeds. -/
theorem jira_startup_token_source_witness :
    ∃ cfg, jira_startup envJiraAll = PyResult.ok cfg :=
  (jira_startup_token_source envJiraAll).1.mpr (by decide)

/-- Claim C4: when the transitions fetch succeeds but no fetched transition
name matches the requested status case-insensitively, `transition_issue`
returns the error dict listing all fetched transition names and POSTs no
transition. -/
theorem transition_issue_no_match_error (issue_key status : String)
    (up : JiraTransitionUpstream)
    (h200 : up.getResp.status_code = 200)
    (hne : up.getTransitions ≠ [])
    (hno : ∀ t ∈ up.getTransitions, pyLower t.name ≠ pyLower status) :
    transition_issue issue_key status up =
      (TransitionDict.err
        (transitionNotFoundMsg status (up.getTransitions.map Transition.name)), []) := by
  have hie : up.getTransitions.isEmpty = false := by
    cases h : up.getTransitions with
    | nil => exact absurd h hne
    | cons a as => rfl
  have hfind : up.getTransitions.find? (fun t => pyLower t.name == pyLower status) = none := by
    apply List.find?_eq_none.mpr
    intro t ht
    simpa using hno t ht
  simp [transition_issue, h200, hie, hfind]

/-- Upstream with transitions `Done` and `In Progress`, none matching the
status requested in the claim C4 witness. -/
def upC4 : JiraTransitionUpstream :=
  ⟨⟨200, "body"⟩, [⟨"31", "Done"⟩, ⟨"21", "In Progress"⟩], fun _ => ⟨204, ""⟩⟩

/-- Witness for claim C4: requesting status `Closed` against transitions
`Done` and `In Progress` yields the enumerating error and no POST. -/
theorem transition_issue_no_match_error_witness :
    transition_issue "ISSUE-1" "Closed" upC4 =
      (TransitionDict.err
        (transitionNotFoundMsg "Closed" ["Done", "In Progress"]), []) :=
  transition_issue_no_match_error "ISSUE-1" "Closed" upC4 rfl (by decide) (by decide)

/-- Claim C5: when some fetched transition matches the requested status
case-insensitively, `transition_issue` POSTs exactly that transition's id
(`up.getTransitions.find?` picks the match the Python `next(...)` picks). -/
theorem transition_issue_match_posts_id (issue_key status : String)
    (up : JiraTransitionUpstream) (t : Transition)
    (h200 : up.getResp.status_code = 200)
    (hfind : up.getTransitions.find? (fun x => pyLower x.name == pyLower status) = some t) :
    (transition_issue issue_key status up).2 = [t.id] := by
  have hie : up.getTransitions.isEmpty = false := by
    cases h : up.getTransitions with
    | nil => rw [h] at hfind; simp at hfind
    | cons a as => rfl
  simp [transition_issue, h200, hie, hfind]
  split <;> rfl

/-- Upstream with the single transition `Done` (id `31`) for the claim C5
witness. -/
def upC5 : JiraTransitionUpstream :=
  ⟨⟨200, "body"⟩, [⟨"31", "Done"⟩], fun _ => ⟨204, ""⟩⟩

/-- Witness for claim C5: requesting `done` against available `Done` POSTs
transition id `31`. -/
theorem transition_issue_match_posts_id_witness :
    (transition_issue "ISSUE-1" "done" upC5).2 = ["31"] :=
  transition_issue_match_posts_id "ISSUE-1" "done" upC5 ⟨"31", "Done"⟩ rfl (by decide)

/-- Claim C6: on a successful fetch, `summarize_page` truncates content
longer than 500 characters to exactly its first 500 characters plus the
`...` marker, and embeds content of at most 500 characters unmodified with
no marker; either way the result carries the fixed page-naming prefix. -/
theorem summarize_page_truncation (page_id content : String) (resp : HttpResp)
    (h : resp.status_code = 200) :
    (content.length > 500 →
      summarize_page page_id resp content =
        PyResult.ok ("Summary of page " ++ page_id ++ ": " ++ (pyTake content 500 ++ "..."))
      ∧ (pyTake content 500).length = 500) ∧
    (content.length ≤ 500 →
      summarize_page page_id resp content =
        PyResult.ok ("Summary of page " ++ page_id ++ ": " ++ content)) := by
  have hr : raise_for_status resp = PyResult.ok () := by
    simp [raise_for_status, h]
  constructor
  · intro hlen
    constructor
    · simp [summarize_page, hr, hlen]
    · show (content.data.take 500).length = 500
      rw [List.length_take]
      have hd : content.length = content.data.length := rfl
      omega
  · intro hlen
    have hn : ¬ content.length > 500 := by omega
    simp [summarize_page, hr, hn]

/-- A 501-character content string for the claim C6 witness. -/
def longContent : String := ⟨List.replicate 501 'a'⟩

/-- Witness for claim C6 at a concrete 501-character content: the summary is
the first 500 characters plus the marker. -/
theorem summarize_page_truncation_witness :
    summarize_page "42" ⟨200, "body"⟩ longContent =
      PyResult.ok ("Summary of page 42: " ++ (pyTake longContent 500 ++ "..."))
    ∧ (pyTake longContent 500).length = 500 :=
  (summarize_page_truncation "42" longContent ⟨200, "body"⟩ rfl).1 (by
    show (List.replicate 501 'a').length > 500
    rw [List.length_replicate]
    omega)

/-- Claim C7, counterexample: the single GET that `get_connector_info`
issues for connector id `abc` goes to `/v1/connections/abc`, not to the
`/v1/connectors/abc` endpoint the claim names. -/
theorem get_connector_info_url_is_connections :
    (get_connector_info "abc" ⟨200, "body"⟩ Json.null).2 =
      ["https://api.fivetran.com/v1/connections/abc"] ∧
    "https://api.fivetran.com/v1/connectors/abc" ∉
      (get_connector_info "abc" ⟨200, "body"⟩ Json.null).2 :=
  ⟨rfl, by decide⟩

/-- Claim C7, amended: for every connector id, `get_connector_info` forwards
exactly one GET, to `https://api.fivetran.com/v1/connections/<id>`, and on a
200 response passes the parsed body's `data` member through to the
caller. -/
theorem get_connector_info_passthrough (connector_id : String) (resp : HttpResp)
    (data : Json) (h : resp.status_code = 200) :
    get_connector_info connector_id resp data =
      (PyResult.ok data, [connectorInfoUrl connector_id]) := by
  simp [get_connector_info, raise_for_status, h]

/-- Witness for the amended claim C7 at a concrete connector id. -/
theorem get_connector_info_passthrough_witness :
    get_connector_info "conn-1" ⟨200, "body"⟩ (Json.str "record") =
      (PyResult.ok (Json.str "record"), [connectorInfoUrl "conn-1"]) :=
  get_connector_info_passthrough "conn-1" ⟨200, "body"⟩ (Json.str "record") rfl

/-- Claim C8, counterexample: on a successful listing the per-PR dict has
keys `number`, `title`, `state`, `user` — there is no `key` field, contrary
to the claimed projection. -/
theorem list_pull_requests_keys_no_key_field :
    (list_pull_requests "octo" "demo" "open" ⟨200, "body"⟩
        [⟨1, "Fix bug", "open", "alice"⟩]).map Json.keys =
      [["number", "title", "state", "user"]] ∧
    "key" ∉ (["number", "title", "state", "user"] : List String) :=
  ⟨rfl, by decide⟩

/-- Claim C8, amended: on HTTP 200, `list_pull_requests` maps every parsed
pull request to the reduced projection whose keys are exactly `number`,
`title`, `state`, and `user`. -/
theorem list_pull_requests_projection (owner repo state : String) (resp : HttpResp)
    (prs : List PullRequest) (h : resp.status_code = 200) :
    list_pull_requests owner repo state resp prs = prs.map pullRequestProjection ∧
    ∀ pr, (pullRequestProjection pr).keys = ["number", "title", "state", "user"] := by
  constructor
  · simp [list_pull_requests, h]
  · intro pr
    rfl

/-- Witness for the amended claim C8 at a concrete one-element listing. -/
theorem list_pull_requests_projection_witness :
    list_pull_requests "octo" "demo" "open" ⟨200, "ok"⟩ [⟨7, "Title", "open", "bob"⟩] =
      [pullRequestProjection ⟨7, "Title", "open", "bob"⟩] :=
  (list_pull_requests_projection "octo" "demo" "open" ⟨200, "ok"⟩
    [⟨7, "Title", "open", "bob"⟩] rfl).1

/-- Claim C9: with no configured space key, `create_page` raises the
configuration `ValueError` of `src/confluence_mcp.py` line 56 and issues no
network request, for every body, title, and would-be upstream response. -/
theorem create_page_missing_space_key (base body title : String) (resp : HttpResp)
    (parsed : Json) :
    create_page base none body title resp parsed =
      (PyResult.exn "Missing CONFLUENCE_SPACE_KEY in environment variables", []) := rfl

/-- Claim C10: when the transitions fetch returns 200 but the parsed
transitions list is empty, `transition_issue` returns the no-transitions
error dict and POSTs nothing. -/
theorem transition_issue_empty_transitions (issue_key status : String)
    (up : JiraTransitionUpstream)
    (h200 : up.getResp.status_code = 200) (hempty : up.getTransitions = []) :
    transition_issue issue_key status up =
      (TransitionDict.err "No transitions available for this issue.", []) := by
  simp [transition_issue, h200, hempty]

/-- Upstream whose 200 response parses to an empty transitions list, for the
claim C10 witness. -/
def upNoTransitions : JiraTransitionUpstream :=
  ⟨⟨200, "body"⟩, [], fun _ => ⟨204, ""⟩⟩

/-- Witness for claim C10 at a concrete empty transitions list. -/
theorem transition_issue_empty_transitions_witness :
    transition_issue "ISSUE-1" "Done" upNoTransitions =
      (TransitionDict.err "No transitions available for this issue.", []) :=
  transition_issue_empty_transitions "ISSUE-1" "Done" upNoTransitions rfl rfl
